import Mathlib

/-
Shallow embedding of the tamagotchi core (src/src/tamagotchi.rs).

Modelling conventions:
- Rust enums become Lean inductive types with the same constructor names.
- `u32` fields become `Nat` (no action in scope touches them arithmetically).
- `f64` weight becomes `ℚ`, keeping the exact fixed increments of the source.
- Rust `impl Default` becomes an `Inhabited` instance (`default`).
- The `unreachable!` branch of `Status::care_level` is modelled by `none`,
  so `care_level` returns `Option CareLevel` and the fatal branch is visible.
-/

/-- The gender of a Tamagotchi (`enum Gender`). -/
inductive Gender
  | Male
  | Female
deriving DecidableEq

/-- Possible teenager forms (`enum TeenForm`). -/
inductive TeenForm
  | Tongaritchi
  | Hashitamatchi
deriving DecidableEq

/-- Possible adult forms (`enum AdultForm`). -/
inductive AdultForm
  | Mimitchi
  | Pochitchi
  | Nyatchi
  | Zuccitchi
  | Hashizoutchi
  | Kusatchi
  | Takotchi
deriving DecidableEq

/-- Possible special forms (`enum SpecialForm`). -/
inductive SpecialForm
  | Sekitoritchi
  | Charitchi
  | Zatchi
deriving DecidableEq

/-- The stage of evolution of a Tamagotchi's life (`enum Form`). -/
inductive Form
  | Tamago
  | Shirobabytchi
  | Tonmarutchi
  | Teen (t : TeenForm)
  | Adult (a : AdultForm)
  | Special (s : SpecialForm)
deriving DecidableEq

/-- `impl Default for Form`: the default form is the egg. -/
instance : Inhabited Form := ⟨Form.Tamago⟩

/-- The level of care a Tamagotchi receives (`enum CareLevel`). -/
inductive CareLevel
  | Bad
  | BelowAverage
  | AboveAverage
  | Good
  | Perfect
deriving DecidableEq, Fintype

/-- `impl Default for CareLevel`: the source defaults to `Good`. -/
instance : Inhabited CareLevel := ⟨CareLevel.Good⟩

/-- The hunger level of a Tamagotchi (`enum Hunger`). -/
inductive Hunger
  | Starving
  | Famished
  | Snackish
  | Peckish
  | Full
deriving DecidableEq, Fintype

/-- `impl Default for Hunger`. -/
instance : Inhabited Hunger := ⟨Hunger.Starving⟩

/-- `impl Hearts for Hunger`. -/
def Hunger.hearts : Hunger → Nat
  | Hunger.Starving => 0
  | Hunger.Famished => 1
  | Hunger.Snackish => 2
  | Hunger.Peckish => 3
  | Hunger.Full => 4

/-- `impl BetterOrWorse for Hunger`, `better`. -/
def Hunger.better : Hunger → Hunger
  | Hunger.Starving => Hunger.Famished
  | Hunger.Famished => Hunger.Snackish
  | Hunger.Snackish => Hunger.Peckish
  | Hunger.Peckish => Hunger.Full
  | Hunger.Full => Hunger.Full

/-- `impl BetterOrWorse for Hunger`, `worse`. -/
def Hunger.worse : Hunger → Hunger
  | Hunger.Starving => Hunger.Starving
  | Hunger.Famished => Hunger.Starving
  | Hunger.Snackish => Hunger.Famished
  | Hunger.Peckish => Hunger.Snackish
  | Hunger.Full => Hunger.Peckish

/-- The Tamagotchi's room light (`enum Light`). -/
inductive Light
  | On
  | Off
deriving DecidableEq

/-- The mood of a Tamagotchi (`enum Mood`). -/
inductive Mood
  | Miserable
  | Pessemistic
  | Indifferent
  | Optimistic
  | Cheerful
deriving DecidableEq, Fintype

/-- `impl Default for Mood`. -/
instance : Inhabited Mood := ⟨Mood.Miserable⟩

/-- `impl Hearts for Mood`. -/
def Mood.hearts : Mood → Nat
  | Mood.Miserable => 0
  | Mood.Pessemistic => 1
  | Mood.Indifferent => 2
  | Mood.Optimistic => 3
  | Mood.Cheerful => 4

/-- `impl BetterOrWorse for Mood`, `better`. -/
def Mood.better : Mood → Mood
  | Mood.Miserable => Mood.Pessemistic
  | Mood.Pessemistic => Mood.Indifferent
  | Mood.Indifferent => Mood.Optimistic
  | Mood.Optimistic => Mood.Cheerful
  | Mood.Cheerful => Mood.Cheerful

/-- `impl BetterOrWorse for Mood`, `worse`. -/
def Mood.worse : Mood → Mood
  | Mood.Miserable => Mood.Miserable
  | Mood.Pessemistic => Mood.Miserable
  | Mood.Indifferent => Mood.Pessemistic
  | Mood.Optimistic => Mood.Indifferent
  | Mood.Cheerful => Mood.Optimistic

/-- A Tamagotchi's health condition (`enum Health`). -/
inductive Health
  | Neglected
  | Weak
  | Normal
  | Strong
  | Eggcellent
deriving DecidableEq, Fintype

/-- `impl Default for Health`. -/
instance : Inhabited Health := ⟨Health.Neglected⟩

/-- `impl Hearts for Health`. -/
def Health.hearts : Health → Nat
  | Health.Neglected => 0
  | Health.Weak => 1
  | Health.Normal => 2
  | Health.Strong => 3
  | Health.Eggcellent => 4

/-- `impl BetterOrWorse for Health`, `better`. -/
def Health.better : Health → Health
  | Health.Neglected => Health.Weak
  | Health.Weak => Health.Normal
  | Health.Normal => Health.Strong
  | Health.Strong => Health.Eggcellent
  | Health.Eggcellent => Health.Eggcellent

/-- `impl BetterOrWorse for Health`, `worse`. -/
def Health.worse : Health → Health
  | Health.Neglected => Health.Neglected
  | Health.Weak => Health.Neglected
  | Health.Normal => Health.Weak
  | Health.Strong => Health.Normal
  | Health.Eggcellent => Health.Strong

/-- The level of discipline a Tamagotchi displays (`enum Discipline`). -/
inductive Discipline
  | Bratty
  | Spoiled
  | Average
  | Goody2Shoes
  | ModelAlien
deriving DecidableEq, Fintype

/-- `Discipline::meter`. -/
def Discipline.meter : Discipline → Nat
  | Discipline.Bratty => 0
  | Discipline.Spoiled => 1
  | Discipline.Average => 2
  | Discipline.Goody2Shoes => 3
  | Discipline.ModelAlien => 4

/-- The condition of a Tamagotchi (`struct Status`). -/
structure Status where
  care : CareLevel
  hunger : Hunger
  light : Light
  asleep : Bool
  mood : Mood
  sick : Bool
  soiled : Bool
  health : Health
  discipline : Discipline
deriving DecidableEq

/-- `Status::care_level`. The `none` result models the `unreachable!` panic
branch of the source (care score outside 0-16). -/
def Status.care_level (s : Status) : Option CareLevel :=
  let care := s.hunger.hearts + s.mood.hearts + s.health.hearts + s.discipline.meter
  match care with
  | 0 | 1 | 2 | 3 => some CareLevel.Bad
  | 4 | 5 | 6 | 7 => some CareLevel.BelowAverage
  | 8 | 9 | 10 | 11 => some CareLevel.AboveAverage
  | 12 | 13 | 14 | 15 => some CareLevel.Good
  | 16 => some CareLevel.Perfect
  | _ => none

/-- The aggregate sum computed as the local `care` inside `Status::care_level`. -/
def Status.careScore (s : Status) : Nat :=
  s.hunger.hearts + s.mood.hearts + s.health.hearts + s.discipline.meter

/-- `Status::eat`: hunger steps one level better, the rest is copied. -/
def Status.eat (s : Status) : Status :=
  let hunger := s.hunger.better
  { s with hunger := hunger }

/-- `Status::play`: mood steps one level better, the rest is copied. -/
def Status.play (s : Status) : Status :=
  let mood := s.mood.better
  { s with mood := mood }

/-- `Status::sleep`: mood and health each step one level better. -/
def Status.sleep (s : Status) : Status :=
  let mood := s.mood.better
  let health := s.health.better
  { s with mood := mood, health := health }

/-- The actual character the user interacts with (`struct Tamagotchi`).
Weight (`f64` in the source) is modelled as an exact rational. -/
structure Tamagotchi where
  name : String
  gender : Gender
  age : Nat
  weight : ℚ
  form : Form
  status : Status

/-- `Tamagotchi::feed`: eat, and weight goes up by 0.5. -/
def Tamagotchi.feed (p : Tamagotchi) : Tamagotchi :=
  let status := p.status.eat
  { name := p.name, gender := p.gender, age := p.age,
    weight := p.weight + 0.5, form := p.form, status := status }

/-- `Tamagotchi::light`: the source computes the toggled light into an unused
local binding and then returns `Self { ..*self }`, an unchanged copy; the
match on `asleep` has two empty arms. Both dead computations are kept here
as discarded lets to mirror the source. -/
def Tamagotchi.light (p : Tamagotchi) : Tamagotchi :=
  let _status : Light :=
    match p.status.light with
    | Light.On => Light.Off
    | Light.Off => Light.On
  let _ : Unit :=
    match p.status.asleep with
    | true => ()
    | false => ()
  { name := p.name, gender := p.gender, age := p.age,
    weight := p.weight, form := p.form, status := p.status }

/-- `Tamagotchi::play`: play, and weight goes down by 0.2. -/
def Tamagotchi.play (p : Tamagotchi) : Tamagotchi :=
  let status := p.status.play
  { name := p.name, gender := p.gender, age := p.age,
    weight := p.weight - 0.2, form := p.form, status := status }

/-- `Tamagotchi::give_medicine`: returns `Self { ..*self }`, a plain copy. -/
def Tamagotchi.give_medicine (p : Tamagotchi) : Tamagotchi :=
  { name := p.name, gender := p.gender, age := p.age,
    weight := p.weight, form := p.form, status := p.status }

/-- `Tamagotchi::duck`: returns `Self { ..*self }`, a plain copy. -/
def Tamagotchi.duck (p : Tamagotchi) : Tamagotchi :=
  { name := p.name, gender := p.gender, age := p.age,
    weight := p.weight, form := p.form, status := p.status }

/-- `Tamagotchi::attention`: returns `Self { ..*self }`, a plain copy. -/
def Tamagotchi.attention (p : Tamagotchi) : Tamagotchi :=
  { name := p.name, gender := p.gender, age := p.age,
    weight := p.weight, form := p.form, status := p.status }

/-- `Tamagotchi::discipline`: returns `self` unchanged. -/
def Tamagotchi.discipline (p : Tamagotchi) : Tamagotchi :=
  p

/-- Band function written from the spec text, to compare with the source's
`care_level`: sums 0-3 map to Bad, 4-7 to BelowAverage, 8-11 to
AboveAverage, 12-15 to Good, 16 to Perfect. -/
def specCareBand (n : Nat) : CareLevel :=
  if n ≤ 3 then CareLevel.Bad
  else if n ≤ 7 then CareLevel.BelowAverage
  else if n ≤ 11 then CareLevel.AboveAverage
  else if n ≤ 15 then CareLevel.Good
  else CareLevel.Perfect

/-
Theorems. Two shared reduction lemmas first: `care_level` and `careScore`
read only the four scored fields of a `Status`.
-/

/-- Reduction of `care_level` on an explicit `Status` to a canonical choice of
the fields it does not read. -/
theorem care_level_mk (c : CareLevel) (h : Hunger) (l : Light) (a : Bool)
    (m : Mood) (k : Bool) (so : Bool) (he : Health) (d : Discipline) :
    (Status.mk c h l a m k so he d).care_level
      = (Status.mk CareLevel.Bad h Light.On false m false false he d).care_level :=
  rfl

/-- Reduction of `careScore` on an explicit `Status` to the sum of the four
component scores. -/
theorem careScore_mk (c : CareLevel) (h : Hunger) (l : Light) (a : Bool)
    (m : Mood) (k : Bool) (so : Bool) (he : Health) (d : Discipline) :
    (Status.mk c h l a m k so he d).careScore
      = h.hearts + m.hearts + he.hearts + d.meter :=
  rfl

/-- C1: For every Status, `care_level` returns the band of the sum
hearts(hunger) + hearts(mood) + hearts(health) + meter(discipline):
0-3 Bad, 4-7 BelowAverage, 8-11 AboveAverage, 12-15 Good, 16 Perfect,
and 16 is the only sum mapping to Perfect. -/
theorem care_level_bands (s : Status) :
    s.care_level = some (specCareBand s.careScore) ∧
    (s.care_level = some CareLevel.Perfect ↔ s.careScore = 16) := by
  obtain ⟨c, h, l, a, m, k, so, he, d⟩ := s
  rw [care_level_mk, careScore_mk]
  revert h m he d
  decide

/-- C2: For Hunger, Mood and Health, `better` and `worse` saturate at the
extremes: better at the top level returns the top level, worse at the bottom
level returns the bottom level, hence better(better(max)) = better(max). -/
theorem better_worse_saturate :
    Hunger.Full.better = Hunger.Full ∧
    Hunger.Starving.worse = Hunger.Starving ∧
    Hunger.Full.better.better = Hunger.Full.better ∧
    Mood.Cheerful.better = Mood.Cheerful ∧
    Mood.Miserable.worse = Mood.Miserable ∧
    Mood.Cheerful.better.better = Mood.Cheerful.better ∧
    Health.Eggcellent.better = Health.Eggcellent ∧
    Health.Neglected.worse = Health.Neglected ∧
    Health.Eggcellent.better.better = Health.Eggcellent.better := by
  decide

/-- C3: For every Pet, `feed` increases weight by exactly 0.5 and steps Hunger
exactly one level better, while every other field of the Pet and of its
Status is unchanged. -/
theorem feed_spec (p : Tamagotchi) :
    p.feed.weight = p.weight + 0.5 ∧
    p.feed.status.hunger = p.status.hunger.better ∧
    p.feed.name = p.name ∧
    p.feed.gender = p.gender ∧
    p.feed.age = p.age ∧
    p.feed.form = p.form ∧
    p.feed.status.care = p.status.care ∧
    p.feed.status.light = p.status.light ∧
    p.feed.status.asleep = p.status.asleep ∧
    p.feed.status.mood = p.status.mood ∧
    p.feed.status.sick = p.status.sick ∧
    p.feed.status.soiled = p.status.soiled ∧
    p.feed.status.health = p.status.health ∧
    p.feed.status.discipline = p.status.discipline :=
  ⟨rfl, rfl, rfl, rfl, rfl, rfl, rfl, rfl, rfl, rfl, rfl, rfl, rfl, rfl⟩

/-- A concrete Pet whose room light is On, for exercising the `light` action. -/
def lightOnPet : Tamagotchi :=
  { name := "Tama", gender := Gender.Male, age := 0, weight := 5,
    form := Form.Tamago,
    status := Status.mk CareLevel.Good Hunger.Starving Light.On false
      Mood.Miserable false false Health.Neglected Discipline.Average }

/-- C4: evaluation of the code at the failing input. The `light` action on a
Pet whose light is On returns the Pet unchanged — the light is still On, not
Off as the claim requires: the source computes the toggled value into an
unused binding and returns a plain copy of `self`. -/
theorem light_noop_on_concrete :
    lightOnPet.light = lightOnPet ∧ lightOnPet.light.status.light = Light.On :=
  ⟨rfl, rfl⟩

/-- C5 counterexample: at the maximum Hunger level (Full), which is not the
minimum (Starving), worse(better(Full)) = Peckish ≠ Full, refuting the claim
that the round trip returns L for every L other than the minimum. -/
theorem roundtrip_fails_at_max :
    Hunger.Full ≠ Hunger.Starving ∧ Hunger.Full.better.worse ≠ Hunger.Full := by
  decide

/-- C5 amended: for Hunger, Mood and Health, worse(better(L)) = L unless L is
already at the maximum level; at the maximum the round trip lands one level
below the maximum and is idempotent there, and it is idempotent at the
minimum as well. -/
theorem roundtrip_amended :
    (∀ h : Hunger, h ≠ Hunger.Full → h.better.worse = h) ∧
    (∀ m : Mood, m ≠ Mood.Cheerful → m.better.worse = m) ∧
    (∀ he : Health, he ≠ Health.Eggcellent → he.better.worse = he) ∧
    (Hunger.Full.better.worse = Hunger.Peckish ∧
      Hunger.Full.better.worse.better.worse = Hunger.Full.better.worse ∧
      Hunger.Starving.better.worse = Hunger.Starving) ∧
    (Mood.Cheerful.better.worse = Mood.Optimistic ∧
      Mood.Cheerful.better.worse.better.worse = Mood.Cheerful.better.worse ∧
      Mood.Miserable.better.worse = Mood.Miserable) ∧
    (Health.Eggcellent.better.worse = Health.Strong ∧
      Health.Eggcellent.better.worse.better.worse = Health.Eggcellent.better.worse ∧
      Health.Neglected.better.worse = Health.Neglected) := by
  decide

/-- C5 amended, witness: the round trip at the non-maximal level Peckish. -/
theorem roundtrip_amended_witness :
    Hunger.Peckish.better.worse = Hunger.Peckish :=
  roundtrip_amended.1 Hunger.Peckish (by decide)

/-- C6: For every Pet, `give_medicine`, `duck`, `attention` and `discipline`
each return a Pet equal to the input in every field: identity no-ops. -/
theorem noop_actions_identity (p : Tamagotchi) :
    p.give_medicine = p ∧ p.duck = p ∧ p.attention = p ∧ p.discipline = p :=
  ⟨rfl, rfl, rfl, rfl⟩

/-- C7: For every Status, `sleep` steps both Mood and Health exactly one level
better (each via the saturating `better` step, which fixes the top levels),
and every other field is unchanged. -/
theorem sleep_spec (s : Status) :
    s.sleep.mood = s.mood.better ∧
    s.sleep.health = s.health.better ∧
    Mood.Cheerful.better = Mood.Cheerful ∧
    Health.Eggcellent.better = Health.Eggcellent ∧
    s.sleep.care = s.care ∧
    s.sleep.hunger = s.hunger ∧
    s.sleep.light = s.light ∧
    s.sleep.asleep = s.asleep ∧
    s.sleep.sick = s.sick ∧
    s.sleep.soiled = s.soiled ∧
    s.sleep.discipline = s.discipline :=
  ⟨rfl, rfl, rfl, rfl, rfl, rfl, rfl, rfl, rfl, rfl, rfl⟩

/-- C8: each component score lies in [0,4], so the aggregate care score lies
in [0,16] and `care_level` never reaches its fatal (`unreachable!`) branch on
any well-typed Status. -/
theorem care_level_never_fatal :
    (∀ h : Hunger, h.hearts ≤ 4) ∧
    (∀ m : Mood, m.hearts ≤ 4) ∧
    (∀ he : Health, he.hearts ≤ 4) ∧
    (∀ d : Discipline, d.meter ≤ 4) ∧
    (∀ s : Status, s.careScore ≤ 16 ∧ (s.care_level).isSome = true) := by
  refine ⟨by decide, by decide, by decide, by decide, ?_⟩
  intro s
  obtain ⟨c, h, l, a, m, k, so, he, d⟩ := s
  rw [careScore_mk, care_level_mk]
  revert h m he d
  decide

/-- C9 counterexample: the source's default CareLevel is Good, not the best
level Perfect, refuting the claim that the care level defaults to its best
level. -/
theorem careLevel_default_not_best :
    (default : CareLevel) = CareLevel.Good ∧
    (default : CareLevel) ≠ CareLevel.Perfect := by
  decide

/-- C9 amended: the defaults are Form = Egg (Tamago), the worst level for
Hunger (Starving), Mood (Miserable) and Health (Neglected), and CareLevel
defaults to Good, the band one below the best (Perfect). -/
theorem defaults_spec :
    (default : Form) = Form.Tamago ∧
    (default : Hunger) = Hunger.Starving ∧
    (default : Mood) = Mood.Miserable ∧
    (default : Health) = Health.Neglected ∧
    (default : CareLevel) = CareLevel.Good :=
  ⟨rfl, rfl, rfl, rfl, rfl⟩

/-- C10: `care_level` depends only on the hunger, mood, health and discipline
fields: two Status values agreeing on those four fields get the same result,
whatever their care, light, asleep, sick and soiled fields are — the stored
care field in particular is never read. -/
theorem care_level_only_reads_scores (s₁ s₂ : Status)
    (hh : s₁.hunger = s₂.hunger) (hm : s₁.mood = s₂.mood)
    (hhe : s₁.health = s₂.health) (hd : s₁.discipline = s₂.discipline) :
    s₁.care_level = s₂.care_level := by
  obtain ⟨c₁, h₁, l₁, a₁, m₁, k₁, o₁, e₁, d₁⟩ := s₁
  obtain ⟨c₂, h₂, l₂, a₂, m₂, k₂, o₂, e₂, d₂⟩ := s₂
  dsimp only at hh hm hhe hd
  subst hh hm hhe hd
  rw [care_level_mk c₁, care_level_mk c₂]

/-- C10 witness: two concrete Status values sharing the four scored fields but
differing in care, light, asleep, sick and soiled have equal care levels. -/
theorem care_level_only_reads_scores_witness :
    (Status.mk CareLevel.Bad Hunger.Full Light.On true Mood.Cheerful true true
      Health.Eggcellent Discipline.ModelAlien).care_level
      = (Status.mk CareLevel.Good Hunger.Full Light.Off false Mood.Cheerful
        false false Health.Eggcellent Discipline.ModelAlien).care_level :=
  care_level_only_reads_scores _ _ rfl rfl rfl rfl
